import Mathlib

/-!
Shallow embedding of `src/escl-scan.py` (diitoo/escl-scan), an eSCL
command-line scanning client.  Pure fragments of `main` become Lean
functions; the side effects of a run (HTTP calls, prints, the file
write) are recorded as an event trace, and the process outcome (normal
exit, `error()` with exit code 1, or an unhandled Python exception) is
an explicit `Outcome` value.  The environment a run observes (xpath
query results of the two XML documents, HTTP status codes, the
`Location` header, the scripted poll responses) is packaged in `World`.
-/

namespace EsclScan

/-- Module-level constant `DEF_NAME` (line 24 of the source). -/
def DEF_NAME : String := "scan"

/-- Module-level constant `MAX_POLL` (line 26). -/
def MAX_POLL : Nat := 50

/-- Namespace constant `NS_SCAN` (line 27). -/
def NS_SCAN : String := "http://schemas.hp.com/imaging/escl/2011/05/03"

/-- Namespace constant `NS_PWG` (line 28). -/
def NS_PWG : String := "http://www.pwg.org/schemas/2010/12/sm"

/-- `SIZES` dictionary (line 25): named paper presets in device units. -/
def SIZES : String → Option (Nat × Nat)
  | "a4" => some (2480, 3508)
  | "a5" => some (1748, 2480)
  | "b5" => some (2079, 2953)
  | "us" => some (2550, 3300)
  | _ => none

/-- `first(a, default=None)` (line 209): head of a list or `None`. -/
def first (a : List String) : Option String :=
  match a with
  | [] => none
  | x :: _ => some x

/-- Decimal value of a digit sequence; `none` at a non-digit. -/
def digitsToNat : List Char → Nat → Option Nat
  | [], acc => some acc
  | c :: t, acc =>
    if 48 ≤ c.toNat then
      if c.toNat ≤ 57 then digitsToNat t (acc * 10 + (c.toNat - 48))
      else none
    else none

/-- Python `int()` on a non-empty string of decimal digits; `none`
elsewhere (where `int()` raises `ValueError`, which the script never
handles, so such documents are out of scope). -/
def pyToNat (s : String) : Option Nat :=
  match s.toList with
  | [] => none
  | l => digitsToNat l 0

/-- `firstInt(a, default=None)` (line 213): `int(f) if f else default`.
An empty list and an empty first string both give the default `None`. -/
def firstInt (a : List String) : Option Nat :=
  match first a with
  | none => none
  | some f => if f = "" then none else pyToNat f

/-- Python `"%s" % v` for an optional string: `None` prints as "None". -/
def pyShowOpt : Option String → String
  | none => "None"
  | some s => s

/-- Python `"%s" % v` for an optional int: `None` prints as "None". -/
def pyShowOptNat : Option Nat → String
  | none => "None"
  | some n => toString n

/-- Python `repr` of a string without escapes: wrapped in single quotes. -/
def pyRepr (s : String) : String := "'" ++ s ++ "'"

/-- Python `"%s" % l` for a list of strings: its `repr`, e.g.
`['image/jpeg', 'application/pdf']`. -/
def pyStrList (l : List String) : String :=
  "[" ++ String.intercalate ", " (l.map pyRepr) ++ "]"

/-- Whether `needle` is a prefix of `hay` or of one of its suffixes. -/
def infixOf (needle : List Char) : List Char → Bool
  | [] => needle.isEmpty
  | c :: t => needle.isPrefixOf (c :: t) || infixOf needle t

/-- Whether `needle` occurs as a contiguous substring of `hay`. -/
def strContains (hay needle : String) : Bool :=
  infixOf needle.toList hay.toList

/-- Python `s.startswith(pre)`: prefix test on the character lists. -/
def strStartsWith (s pre : String) : Bool :=
  pre.toList.isPrefixOf s.toList

/-- `msg` names the string `s`: `s` occurs verbatim inside `msg`. -/
def NamesStr (msg s : String) : Prop :=
  ∃ pre post, msg = pre ++ s ++ post

/-- `msg` names the number `n`: its decimal rendering occurs inside `msg`. -/
def NamesNat (msg : String) (n : Nat) : Prop :=
  NamesStr msg (toString n)

/-! ## Model of `urllib.parse.urljoin`

The script calls `urljoin` at four places, always with a plain relative
path segment (no scheme, authority, query, fragment or dot segments) as
the second argument.  The model below covers exactly that shape of
call: the base is split into scheme (`http`/`https` or none), network
location and path, and the relative segment replaces everything after
the last `/` of the base path (RFC 3986 section 5.3 merge). -/

/-- Path up to and including its last `/` (empty if the path has no `/`). -/
def dirSlash (p : List Char) : List Char :=
  ((p.reverse.dropWhile (fun c => c ≠ '/')).reverse)

/-- Resolution of a plain relative segment `rel` against a base that was
split into `scheme`, and `rest` = network location ++ path. -/
def joinRest (scheme : List Char) (rest rel : List Char) : List Char :=
  let netloc := rest.takeWhile (fun c => c ≠ '/')
  let path := rest.dropWhile (fun c => c ≠ '/')
  let merged := if path = [] then '/' :: rel else dirSlash path ++ rel
  scheme ++ "://".toList ++ netloc ++ merged

/-- `urljoin(base, rel)` on character lists, for the call shapes the
script uses. -/
def urljoinChars (b rel : List Char) : List Char :=
  if "http://".toList.isPrefixOf b then
    joinRest "http".toList (b.drop 7) rel
  else if "https://".toList.isPrefixOf b then
    joinRest "https".toList (b.drop 8) rel
  else
    dirSlash b ++ rel

/-- `urljoin(base, rel)` (line 22 import, used at lines 75, 95, 170, 186). -/
def urljoinModel (base rel : String) : String :=
  String.mk (urljoinChars base.toList rel.toList)

/-- Line 186: `resultUrl = urljoin(resp.headers["Location"] + "/", "NextDocument")`. -/
def resultUrl (location : String) : String :=
  urljoinModel (location ++ "/") "NextDocument"

/-! ## Parameter negotiation (lines 121-162) -/

/-- Lines 121-126: map the requested file type to a MIME format;
`none` is the unreachable `Invalid type` branch. -/
def mimeOf : String → Option String
  | "jpg" => some "image/jpeg"
  | "pdf" => some "application/pdf"
  | _ => none

/-- Lines 132-137: map the requested color-mode token to the protocol
color mode; `none` is the unreachable `Invalid color mode` branch. -/
def colorOf : String → Option String
  | "r24" => some "RGB24"
  | "g8" => some "Grayscale8"
  | _ => none

/-- Lexicographic comparison of character lists by code point, the
order Python uses to compare strings. -/
def charListLt : List Char → List Char → Bool
  | [], [] => false
  | [], _ :: _ => true
  | _ :: _, [] => false
  | a :: as, b :: bs =>
    if a.toNat < b.toNat then true
    else if b.toNat < a.toNat then false
    else charListLt as bs

/-- Python `a < b` on strings: lexicographic by code points. -/
def pyStrLt (a b : String) : Bool := charListLt a.toList b.toList

/-- Python `max` over a list of strings: lexicographic by code points,
`none` for the empty list (`max([])` raises `ValueError`). -/
def pyMaxStr (l : List String) : Option String :=
  l.foldl (fun acc v =>
    match acc with
    | none => some v
    | some a => if pyStrLt a v then some v else some a) none

/-- Line 144: `max([value for value in xResolutions if value in yResolutions])`.
The automatic resolution is the Python `max` (a string comparison) of
the X-resolutions that also appear in the Y-resolutions. -/
def autoResolution (xs ys : List String) : Option String :=
  pyMaxStr (xs.filter (fun v => ys.contains v))

/-- Modelled from the spec: the spec's words for the automatic
resolution are the numerically largest value present in both the X- and
Y-resolution sets ("numeric max over the intersection, not
lexicographic").  Stated over the same string inputs for comparison
with `autoResolution`. -/
def specNumericAutoResolution (xs ys : List String) : Option Nat :=
  ((xs.filter (fun v => ys.contains v)).filterMap pyToNat).max?

/-- Line 148-149 error message. -/
def unsupportedXResMsg (r : String) (xs : List String) : String :=
  "Unsupported x-resolution '" ++ r ++ "', supported: " ++ pyStrList xs

/-- Line 150-151 error message. -/
def unsupportedYResMsg (r : String) (ys : List String) : String :=
  "Unsupported y-resolution '" ++ r ++ "', supported: " ++ pyStrList ys

/-- Lines 148-151: the negotiated resolution must be a member of the
X-resolution list, then of the Y-resolution list; the first failing
check calls `error()` with a message naming that list only. -/
def checkResolution (resolution : String) (xs ys : List String) :
    Except String String :=
  if resolution ∉ xs then
    Except.error (unsupportedXResMsg resolution xs)
  else if resolution ∉ ys then
    Except.error (unsupportedYResMsg resolution ys)
  else
    Except.ok resolution

/-- Line 159-160 error message. -/
def invalidWidthMsg (w maxW : Nat) : String :=
  "Invalid width: " ++ toString w ++ ", maximum: " ++ toString maxW

/-- Line 161-162 error message. -/
def invalidHeightMsg (h maxH : Nat) : String :=
  "Invalid height: " ++ toString h ++ ", maximum: " ++ toString maxH

/-- Result of the width/height selection and checks (lines 154-162).
`typeErr` is Python's `TypeError` from comparing an `int` (or `None`)
with `None` when a capability maximum is missing; `keyErr` is the
`KeyError` of `SIZES[args.size]` for a size outside the dictionary
(unreachable through argparse). -/
inductive SizeResult where
  | ok (width height : Nat)
  | err (msg : String)
  | typeErr
  | keyErr
  deriving DecidableEq, Repr

/-- Lines 154-162: pick the width/height (device max for size "max",
else the `SIZES` preset) and check them against the device maxima.
The width comparison runs first; with a missing maximum the comparison
itself raises `TypeError`. -/
def sizeStep (size : String) (maxW maxH : Option Nat) : SizeResult :=
  let wh : Option (Option Nat × Option Nat) :=
    if size = "max" then some (maxW, maxH)
    else (SIZES size).map (fun p => (some p.1, some p.2))
  match wh with
  | none => SizeResult.keyErr
  | some (width, height) =>
    match width, maxW with
    | some wd, some mw =>
      if mw < wd then SizeResult.err (invalidWidthMsg wd mw)
      else
        match height, maxH with
        | some ht, some mh =>
          if mh < ht then SizeResult.err (invalidHeightMsg ht mh)
          else SizeResult.ok wd ht
        | _, _ => SizeResult.typeErr
    | _, _ => SizeResult.typeErr

/-! ## The run model (the body of `main`, lines 51-206)

A run's inputs are the parsed command-line arguments (`Args`, the
fields argparse produces at lines 224-233) and the environment the run
observes (`World`).  The XML documents are represented by the results
of the xpath queries the script makes on them (lists of text nodes);
`fileExists` is `os.path.isfile`; `nowStamp` is the formatted
`datetime.now()`. -/

/-- The argparse namespace (lines 224-233). -/
structure Args where
  info : Bool
  out : String
  type : String
  resolution : String
  colorMode : String
  size : String
  url : String

/-- The xpath query results on the capabilities document (lines 83-92). -/
structure CapsDoc where
  versionText : List String
  makeAndModelText : List String
  serialNumberText : List String
  adminUriText : List String
  formats : List String
  colorModes : List String
  xResolutions : List String
  yResolutions : List String
  maxWidthText : List String
  maxHeightText : List String

/-- The environment one run observes. -/
structure World where
  nowStamp : String
  fileExists : String → Bool
  capStatus : Nat
  caps : CapsDoc
  statusStatus : Nat
  stateText : List String
  submitStatus : Nat
  submitLocation : Option String
  pollResponses : List (Nat × String)

/-- An observable side effect of a run, in order of occurrence. -/
inductive Event where
  | getCapabilities (url : String)
  | getStatus (url : String)
  | submitJob (url : String) (body : String)
  | pollJob (url : String)
  | writeFile (name : String) (content : String)
  | printLine (s : String)
  deriving DecidableEq, Repr

/-- Whether an event is one of the scan-job network calls (the POST to
`ScanJobs` or a GET of the result URL). -/
def isJobCall : Event → Bool
  | Event.submitJob _ _ => true
  | Event.pollJob _ => true
  | _ => false

/-- The URLs polled during a trace, in order. -/
def pollUrls (t : List Event) : List String :=
  t.filterMap (fun e =>
    match e with
    | Event.pollJob u => some u
    | _ => none)

/-- How the process ends.  `failed` is `error()` (print + `sys.exit(1)`),
`crashed` an unhandled Python exception (also a non-zero exit),
`starved` the model artifact of running out of scripted poll responses
(the real script would still be blocked polling). -/
inductive Outcome where
  | finished (filename : String)
  | infoShown
  | failed (msg : String)
  | crashed (msg : String)
  | starved
  deriving DecidableEq, Repr

/-- Outcomes that terminate the run with a non-zero exit status. -/
def isFailureOutcome : Outcome → Bool
  | Outcome.failed _ => true
  | Outcome.crashed _ => true
  | _ => false

/-- `requests.Response.raise_for_status` raises for 4xx/5xx codes. -/
def httpError (code : Nat) : Bool := decide (400 ≤ code)

/-- Lines 63-66: output filename, `args.out` or a generated default. -/
def filenameOf (args : Args) (now : String) : String :=
  if args.out ≠ "" then args.out
  else DEF_NAME ++ "_" ++ now ++ "." ++ args.type

/-- Line 59 error message. -/
def invalidUrlMsg (url : String) : String := "Invalid URL: " ++ url

/-- Line 70 error message. -/
def fileExistsMsg (f : String) : String := "File exists already: " ++ f

/-- Line 126 error message (unreachable through argparse). -/
def invalidTypeMsg (t : String) : String := "Invalid type: " ++ t

/-- Lines 128-129 error message. -/
def unsupportedFormatMsg (f : String) (fmts : List String) : String :=
  "Unsupported format: '" ++ f ++ "', supported: " ++ pyStrList fmts

/-- Line 137 error message (unreachable through argparse). -/
def invalidColorModeMsg (c : String) : String := "Invalid color mode: " ++ c

/-- Lines 139-140 error message. -/
def unsupportedColorModeMsg (c : String) (cms : List String) : String :=
  "Unsupported color mode: '" ++ c ++ "', supported: " ++ pyStrList cms

/-- Line 169 error message (`status` may be `None`). -/
def invalidStatusMsg (st : Option String) : String :=
  "Invalid scanner status: " ++ pyShowOpt st

/-- Line 200 error message: the give-up diagnostic. -/
def giveUpMsg (url filename : String) : String :=
  "Giving up after " ++ toString MAX_POLL ++
    " attempts to load result, try it manually later: curl -s " ++
    url ++ " > " ++ filename

/-- The `SCAN_REQUEST` template (lines 29-48), after Python''s `.strip()`. -/
def SCAN_REQUEST : String :=
  "<?xml version=\"1.0\" encoding=\"UTF-8\"?>\n" ++
  "<scan:ScanSettings xmlns:pwg=\"__NS_PWG__\" xmlns:scan=\"__NS_SCAN__\">\n" ++
  "  <pwg:Version>__VERSION__</pwg:Version>\n" ++
  "  <pwg:ScanRegions>\n" ++
  "    <pwg:ScanRegion>\n" ++
  "      <pwg:XOffset>0</pwg:XOffset>\n" ++
  "      <pwg:YOffset>0</pwg:YOffset>\n" ++
  "      <pwg:Width>__WIDTH__</pwg:Width>\n" ++
  "      <pwg:Height>__HEIGHT__</pwg:Height>\n" ++
  "      <pwg:ContentRegionUnits>escl:ThreeHundredthsOfInches</pwg:ContentRegionUnits>\n" ++
  "    </pwg:ScanRegion>\n" ++
  "  </pwg:ScanRegions>\n" ++
  "  <pwg:InputSource>Platen</pwg:InputSource>\n" ++
  "  <pwg:DocumentFormat>__FORMAT__</pwg:DocumentFormat>\n" ++
  "  <scan:ColorMode>__COLORMODE__</scan:ColorMode>\n" ++
  "  <scan:XResolution>__RESOLUTION__</scan:XResolution>\n" ++
  "  <scan:YResolution>__RESOLUTION__</scan:YResolution>\n" ++
  "</scan:ScanSettings>"

/-- Lines 171-179: the submit body, template substitution. -/
def startReq (version format colorMode resolution : String)
    (width height : Nat) : String :=
  ((((((((SCAN_REQUEST.replace "__NS_SCAN__" NS_SCAN).replace
    "__NS_PWG__" NS_PWG).replace
    "__VERSION__" version).replace
    "__FORMAT__" format).replace
    "__COLORMODE__" colorMode).replace
    "__RESOLUTION__" resolution).replace
    "__WIDTH__" (toString width)).replace
    "__HEIGHT__" (toString height))

/-- The eleven `--info` output lines (lines 107-117). -/
def infoLines (args : Args) (w : World) : List String :=
  [ "Scanner model: " ++ pyShowOpt (first w.caps.makeAndModelText),
    "Serial number: " ++ pyShowOpt (first w.caps.serialNumberText),
    "Scanner URL:   " ++ args.url,
    "Admin URL:     " ++ pyShowOpt (first w.caps.adminUriText),
    "Formats:       " ++ String.intercalate ", " w.caps.formats,
    "Color Modes:   " ++ String.intercalate ", " w.caps.colorModes,
    "X-Resolutions: " ++ String.intercalate ", " w.caps.xResolutions,
    "Y-Resolutions: " ++ String.intercalate ", " w.caps.yResolutions,
    "Max width:     " ++ pyShowOptNat (firstInt w.caps.maxWidthText),
    "Max height:    " ++ pyShowOptNat (firstInt w.caps.maxHeightText),
    "Status:        " ++ pyShowOpt (first w.stateText) ]

/-- Terminal state of the poll loop on a finite response script. -/
inductive PollResult where
  | received (body : String)
  | gaveUp
  | outOfResponses
  deriving DecidableEq, Repr

/-- Lines 190-200: sleep, GET the result URL, stop on HTTP 200, give up
once the attempt counter exceeds `MAX_POLL`.  Each iteration records
one `pollJob` event.  `outOfResponses` marks the response script
running dry (the real loop would still be waiting). -/
def pollLoop (url : String) : List (Nat × String) → Nat → List Event × PollResult
  | [], _ => ([], PollResult.outOfResponses)
  | (code, body) :: rest, counter =>
    if code = 200 then ([Event.pollJob url], PollResult.received body)
    else if MAX_POLL < counter + 1 then ([Event.pollJob url], PollResult.gaveUp)
    else
      let r := pollLoop url rest (counter + 1)
      (Event.pollJob url :: r.1, r.2)

/-- Lines 121-206: everything after the two GETs in a non-`--info`
run — negotiation, the idle check, submit, poll and the file write.
`evs` is the trace so far (the two GETs). -/
def runScan (args : Args) (w : World) (filename : String)
    (evs : List Event) : List Event × Outcome :=
  match mimeOf args.type with
  | none => (evs, Outcome.failed (invalidTypeMsg args.type))
  | some format =>
  if format ∉ w.caps.formats then
    (evs, Outcome.failed (unsupportedFormatMsg format w.caps.formats))
  else
  match colorOf args.colorMode with
  | none => (evs, Outcome.failed (invalidColorModeMsg args.colorMode))
  | some colorMode =>
  if colorMode ∉ w.caps.colorModes then
    (evs, Outcome.failed (unsupportedColorModeMsg colorMode w.caps.colorModes))
  else
  match (if args.resolution = "" then
          autoResolution w.caps.xResolutions w.caps.yResolutions
        else some args.resolution) with
  | none => (evs, Outcome.crashed "ValueError")
  | some resolution =>
  match checkResolution resolution w.caps.xResolutions w.caps.yResolutions with
  | Except.error m => (evs, Outcome.failed m)
  | Except.ok _ =>
  match sizeStep args.size (firstInt w.caps.maxWidthText)
      (firstInt w.caps.maxHeightText) with
  | SizeResult.keyErr => (evs, Outcome.crashed "KeyError")
  | SizeResult.typeErr => (evs, Outcome.crashed "TypeError")
  | SizeResult.err m => (evs, Outcome.failed m)
  | SizeResult.ok width height =>
  if first w.stateText ≠ some "Idle" then
    (evs, Outcome.failed (invalidStatusMsg (first w.stateText)))
  else
  match first w.caps.versionText with
  | none => (evs, Outcome.crashed "TypeError")
  | some version =>
    let startUrl := urljoinModel args.url "eSCL/ScanJobs"
    let body := startReq version format colorMode resolution width height
    let evs2 := evs ++ [Event.submitJob startUrl body]
    if httpError w.submitStatus then (evs2, Outcome.crashed "HTTPError")
    else
      match w.submitLocation with
      | none => (evs2, Outcome.crashed "KeyError")
      | some loc =>
        let rUrl := resultUrl loc
        let p := pollLoop rUrl w.pollResponses 1
        match p.2 with
        | PollResult.received content =>
          (evs2 ++ p.1 ++ [Event.writeFile filename content],
           Outcome.finished filename)
        | PollResult.gaveUp =>
          (evs2 ++ p.1, Outcome.failed (giveUpMsg rUrl filename))
        | PollResult.outOfResponses => (evs2 ++ p.1, Outcome.starved)

/-- Lines 74-118: the two GETs, then either the `--info` dump or the
scan continuation. -/
def runQueries (args : Args) (w : World) (filename : String) :
    List Event × Outcome :=
  if httpError w.capStatus then
    ([Event.getCapabilities (urljoinModel args.url "eSCL/ScannerCapabilities")],
     Outcome.crashed "HTTPError")
  else if httpError w.statusStatus then
    ([Event.getCapabilities (urljoinModel args.url "eSCL/ScannerCapabilities"),
      Event.getStatus (urljoinModel args.url "eSCL/ScannerStatus")],
     Outcome.crashed "HTTPError")
  else if args.info then
    ([Event.getCapabilities (urljoinModel args.url "eSCL/ScannerCapabilities"),
      Event.getStatus (urljoinModel args.url "eSCL/ScannerStatus")]
      ++ (infoLines args w).map Event.printLine, Outcome.infoShown)
  else
    runScan args w filename
      [Event.getCapabilities (urljoinModel args.url "eSCL/ScannerCapabilities"),
       Event.getStatus (urljoinModel args.url "eSCL/ScannerStatus")]

/-- `main` (lines 51-206): URL scheme check, filename conflict check,
then the networked part. -/
def run (args : Args) (w : World) : List Event × Outcome :=
  if strStartsWith args.url "http://" = false ∧ strStartsWith args.url "https://" = false then
    ([], Outcome.failed (invalidUrlMsg args.url))
  else if args.info = false ∧ w.fileExists (filenameOf args w.nowStamp) = true then
    ([], Outcome.failed (fileExistsMsg (filenameOf args w.nowStamp)))
  else
    runQueries args w (filenameOf args w.nowStamp)

/-! ## Concrete fixtures for the closed theorems -/

/-- A capabilities document whose `MaxWidth`/`MaxHeight` elements are
missing (their xpath queries return no text node). -/
def c2Caps : CapsDoc :=
  { versionText := ["2.63"], makeAndModelText := ["TestScanner 100"],
    serialNumberText := ["SN1"], adminUriText := ["http://scanner.local/admin"],
    formats := ["image/jpeg", "application/pdf"],
    colorModes := ["RGB24", "Grayscale8"],
    xResolutions := ["300", "600"], yResolutions := ["300", "600"],
    maxWidthText := [], maxHeightText := [] }

/-- A non-`--info` scan invocation for an A4 JPEG at 300 dpi. -/
def c2Args : Args :=
  { info := false, out := "out-c2.jpg", type := "jpg", resolution := "300",
    colorMode := "r24", size := "a4", url := "http://scanner.local" }

/-- An otherwise healthy environment around `c2Caps`: idle scanner,
successful HTTP responses, a result ready at the first poll. -/
def c2World : World :=
  { nowStamp := "20260101-120000", fileExists := fun _ => false,
    capStatus := 200, caps := c2Caps, statusStatus := 200,
    stateText := ["Idle"], submitStatus := 201,
    submitLocation := some "http://scanner.local/eSCL/ScanJobs/1",
    pollResponses := [(200, "JPEGDATA")] }

/-- Like `c2Caps` but with the maxima present (2500 x 3500). -/
def c4Caps : CapsDoc :=
  { c2Caps with maxWidthText := ["2500"], maxHeightText := ["3500"] }

/-- A scan invocation at device-max size. -/
def c4Args : Args :=
  { info := false, out := "out-c4.jpg", type := "jpg", resolution := "300",
    colorMode := "r24", size := "max", url := "http://scanner.local" }

/-- An environment whose submit response carries the server-relative
`Location` header `/jobs/17`. -/
def c4World : World :=
  { nowStamp := "20260101-120000", fileExists := fun _ => false,
    capStatus := 200, caps := c4Caps, statusStatus := 200,
    stateText := ["Idle"], submitStatus := 201,
    submitLocation := some "/jobs/17",
    pollResponses := [(200, "JPEGDATA")] }

/-! ## Claims -/

/-- C1: the claim says the "auto" resolution is the numerically largest
value in the intersection of the X- and Y-resolution sets.  The code
(line 144) takes Python `max` over the xpath *strings*, a lexicographic
comparison: on X = Y = ("600", "1200") it selects "600", not the
numerically largest common value 1200 that the spec (and the script's
own help text, "default: max. available") promises. -/
theorem c1_auto_resolution_is_lexicographic :
    autoResolution ["600", "1200"] ["600", "1200"] = some "600" ∧
    specNumericAutoResolution ["600", "1200"] ["600", "1200"] = some 1200 ∧
    autoResolution ["600", "1200"] ["600", "1200"] ≠ some "1200" := by
  refine ⟨rfl, rfl, ?_⟩
  rw [show autoResolution ["600", "1200"] ["600", "1200"] = some "600" from rfl]
  simp

/-- C2: the claim says a capability document without `MaxWidth` and
`MaxHeight` falls back to the documented 2500 x 3500 default and the
run proceeds.  In the code `firstInt` leaves the missing maxima `None`
(line 91-92), and the width comparison at line 159 then raises an
uncaught `TypeError`: the run crashes before any job is submitted, and
no default is substituted. -/
theorem c2_missing_max_crashes :
    firstInt c2Caps.maxWidthText = none ∧
    firstInt c2Caps.maxWidthText ≠ some 2500 ∧
    (run c2Args c2World).2 = Outcome.crashed "TypeError" ∧
    (run c2Args c2World).1 =
      [Event.getCapabilities "http://scanner.local/eSCL/ScannerCapabilities",
       Event.getStatus "http://scanner.local/eSCL/ScannerStatus"] := by
  refine ⟨rfl, ?_, rfl, rfl⟩
  intro h
  rw [show firstInt c2Caps.maxWidthText = none from rfl] at h
  cases h

/-- C4 counterexample: with scanner base URL `http://scanner.local` and
a submit `Location` of `/jobs/17`, the poll URL the run actually uses
is `/jobs/17/NextDocument` — the scanner base is never prepended, so
the claimed `{base}/jobs/17/NextDocument` is not the computed URL. -/
theorem c4_base_not_prepended :
    resultUrl "/jobs/17" = "/jobs/17/NextDocument" ∧
    pollUrls (run c4Args c4World).1 = ["/jobs/17/NextDocument"] ∧
    "/jobs/17/NextDocument" ≠ "http://scanner.local" ++ "/jobs/17/NextDocument" := by
  refine ⟨rfl, rfl, ?_⟩
  simp

/-- C4 amended: for the submit `Location` value `/jobs/17` the computed
poll URL is `/jobs/17/NextDocument` — the `Location` value joined with
the fixed trailing segment `NextDocument`, with no double slash; the
scanner base URL is not prepended. -/
theorem c4_poll_url_join :
    resultUrl "/jobs/17" = "/jobs/17/NextDocument" ∧
    strContains (resultUrl "/jobs/17") "//" = false :=
  ⟨rfl, rfl⟩

/-- C7 counterexample: for requested resolution "600" with X-resolutions
("300") and Y-resolutions ("150"), the run fails with the x-resolution
message, which names only the X set: the rendering of the Y set appears
nowhere in the diagnostic, so the failure does not name *both*
supported sets as claimed. -/
theorem c7_only_one_set_named :
    checkResolution "600" ["300"] ["150"] =
      Except.error (unsupportedXResMsg "600" ["300"]) ∧
    strContains (unsupportedXResMsg "600" ["300"]) (pyStrList ["150"]) = false :=
  ⟨rfl, rfl⟩

/-- C7 amended: an explicitly requested resolution is accepted exactly
when it is a member of both the X- and the Y-resolution set; otherwise
the run fails with a diagnostic naming the requested value and the
supported set of the first failing axis (X checked before Y). -/
theorem c7_resolution_membership (res : String) (xs ys : List String) :
    (checkResolution res xs ys = Except.ok res ↔ res ∈ xs ∧ res ∈ ys)
    ∧ (res ∉ xs →
        checkResolution res xs ys = Except.error (unsupportedXResMsg res xs)
        ∧ NamesStr (unsupportedXResMsg res xs) res
        ∧ NamesStr (unsupportedXResMsg res xs) (pyStrList xs))
    ∧ (res ∈ xs → res ∉ ys →
        checkResolution res xs ys = Except.error (unsupportedYResMsg res ys)
        ∧ NamesStr (unsupportedYResMsg res ys) res
        ∧ NamesStr (unsupportedYResMsg res ys) (pyStrList ys)) := by
  refine ⟨?_, ?_, ?_⟩
  · constructor
    · intro h
      by_cases hx : res ∈ xs
      · by_cases hy : res ∈ ys
        · exact ⟨hx, hy⟩
        · simp [checkResolution, hx, hy] at h
      · simp [checkResolution, hx] at h
    · rintro ⟨hx, hy⟩
      simp [checkResolution, hx, hy]
  · intro hx
    refine ⟨by simp [checkResolution, hx], ?_, ?_⟩
    · exact ⟨"Unsupported x-resolution '", "', supported: " ++ pyStrList xs, by
        simp [unsupportedXResMsg, String.append_assoc]⟩
    · exact ⟨"Unsupported x-resolution '" ++ res ++ "', supported: ", "", by
        simp [unsupportedXResMsg, String.append_assoc]⟩
  · intro hx hy
    refine ⟨by simp [checkResolution, hx, hy], ?_, ?_⟩
    · exact ⟨"Unsupported y-resolution '", "', supported: " ++ pyStrList ys, by
        simp [unsupportedYResMsg, String.append_assoc]⟩
    · exact ⟨"Unsupported y-resolution '" ++ res ++ "', supported: ", "", by
        simp [unsupportedYResMsg, String.append_assoc]⟩

/-- C7 witness: the amended theorem at a concrete input. -/
theorem c7_resolution_membership_witness :
    checkResolution "600" ["300"] ["150"] =
      Except.error (unsupportedXResMsg "600" ["300"]) :=
  ((c7_resolution_membership "600" ["300"] ["150"]).2.1 (by decide)).1

/-- C8: size "max" always passes the region checks when the device
maxima are at least 1 (the selected width/height equal the maxima); a
named preset whose width exceeds the device maximum fails with the
width-limit error naming the maximum, and one whose height exceeds it
(width fitting) fails with the height-limit error naming the maximum. -/
theorem c8_region_sizing :
    (∀ mw mh : Nat, 1 ≤ mw → 1 ≤ mh →
      sizeStep "max" (some mw) (some mh) = SizeResult.ok mw mh)
    ∧ (∀ (p : String) (wd ht mw mh : Nat), SIZES p = some (wd, ht) → mw < wd →
        sizeStep p (some mw) (some mh) = SizeResult.err (invalidWidthMsg wd mw)
          ∧ NamesNat (invalidWidthMsg wd mw) mw)
    ∧ (∀ (p : String) (wd ht mw mh : Nat), SIZES p = some (wd, ht) → wd ≤ mw → mh < ht →
        sizeStep p (some mw) (some mh) = SizeResult.err (invalidHeightMsg ht mh)
          ∧ NamesNat (invalidHeightMsg ht mh) mh) := by
  refine ⟨?_, ?_, ?_⟩
  · intro mw mh _ _
    simp [sizeStep]
  · intro p wd ht mw mh hp hlt
    have hmax : p ≠ "max" := by
      intro h; subst h; simp [SIZES] at hp
    refine ⟨by simp [sizeStep, hmax, hp, hlt], ?_⟩
    exact ⟨"Invalid width: " ++ toString wd ++ ", maximum: ", "", by
      simp [invalidWidthMsg, String.append_assoc]⟩
  · intro p wd ht mw mh hp hle hlt
    have hmax : p ≠ "max" := by
      intro h; subst h; simp [SIZES] at hp
    refine ⟨by simp [sizeStep, hmax, hp, Nat.not_lt.mpr hle, hlt], ?_⟩
    exact ⟨"Invalid height: " ++ toString ht ++ ", maximum: ", "", by
      simp [invalidHeightMsg, String.append_assoc]⟩

/-- C8 witness: the theorem at concrete inputs. -/
theorem c8_region_sizing_witness :
    sizeStep "max" (some 2500) (some 3500) = SizeResult.ok 2500 3500 ∧
    sizeStep "a4" (some 2000) (some 3500) =
      SizeResult.err (invalidWidthMsg 2480 2000) :=
  ⟨c8_region_sizing.1 2500 3500 (by decide) (by decide),
   (c8_region_sizing.2.1 "a4" 2480 3508 2000 3500 (by decide) (by decide)).1⟩

/-- If the scanner state is not `Idle`, the scan continuation adds no
scan-job network call to the trace and ends in a non-zero exit. -/
theorem runScan_not_idle (args : Args) (w : World) (filename : String)
    (evs : List Event) (hstate : first w.stateText ≠ some "Idle")
    (hevs : ∀ e ∈ evs, isJobCall e = false) :
    (∀ e ∈ (runScan args w filename evs).1, isJobCall e = false) ∧
    isFailureOutcome (runScan args w filename evs).2 = true := by
  unfold runScan
  repeat first
    | exact ⟨hevs, rfl⟩
    | exact absurd hstate (by assumption)
    | split

/-- C5: in any run that observes a scanner state other than `Idle`, the
trace contains no scan-job POST and no result poll, and every such run
without `--info` ends with a non-zero exit (whether it reaches the
idle check or fails at an earlier validation step). -/
theorem c5_not_idle_blocks_submit (args : Args) (w : World)
    (hstate : first w.stateText ≠ some "Idle") :
    (∀ e ∈ (run args w).1, isJobCall e = false) ∧
    (args.info = false → isFailureOutcome (run args w).2 = true) := by
  unfold run
  split
  · exact ⟨fun e he => absurd he (List.not_mem_nil e), fun _ => rfl⟩
  · split
    · exact ⟨fun e he => absurd he (List.not_mem_nil e), fun _ => rfl⟩
    · rename_i hnotexists
      unfold runQueries
      split
      · refine ⟨?_, fun _ => rfl⟩
        intro e he
        simp only [List.mem_singleton] at he
        subst he
        rfl
      · split
        · refine ⟨?_, fun _ => rfl⟩
          intro e he
          simp only [List.mem_cons, List.mem_singleton] at he
          rcases he with he | he | he
          · subst he; rfl
          · subst he; rfl
          · exact absurd he (List.not_mem_nil e)
        · split
          · rename_i hinfo
            refine ⟨?_, ?_⟩
            · intro e he
              simp only [List.mem_append, List.mem_cons, List.mem_map,
                List.mem_singleton] at he
              rcases he with (he | he | he) | ⟨s, _, he⟩
              · subst he; rfl
              · subst he; rfl
              · exact absurd he (List.not_mem_nil e)
              · subst he; rfl
            · intro hfalse
              rw [hinfo] at hfalse
              cases hfalse
          · refine And.imp_right (fun h _ => h) ?_
            exact runScan_not_idle args w (filenameOf args w.nowStamp)
              [Event.getCapabilities (urljoinModel args.url "eSCL/ScannerCapabilities"),
               Event.getStatus (urljoinModel args.url "eSCL/ScannerStatus")] hstate (by
              intro e he
              simp only [List.mem_cons, List.mem_singleton] at he
              rcases he with he | he | he
              · subst he; rfl
              · subst he; rfl
              · exact absurd he (List.not_mem_nil e))

/-- A `--info`-less request for a "Processing" scanner. -/
def c5World : World :=
  { c4World with stateText := ["Processing"] }

/-- C5 witness: the theorem at a concrete run. -/
theorem c5_not_idle_blocks_submit_witness :
    (∀ e ∈ (run c4Args c5World).1, isJobCall e = false) ∧
    (c4Args.info = false → isFailureOutcome (run c4Args c5World).2 = true) :=
  c5_not_idle_blocks_submit c4Args c5World (by
    intro h
    rw [show first c5World.stateText = some "Processing" from rfl] at h
    exact absurd (Option.some.inj h) (by simp))

/-- C9: a run without `--info` whose target output path already exists
fails with a diagnostic and a non-zero exit before anything else
happens: the event trace is empty (no network call, no file write), so
the existing file is never overwritten. -/
theorem c9_existing_file_fatal (args : Args) (w : World)
    (hinfo : args.info = false)
    (hex : w.fileExists (filenameOf args w.nowStamp) = true) :
    (run args w).1 = [] ∧ ∃ msg, (run args w).2 = Outcome.failed msg := by
  unfold run
  split
  · exact ⟨rfl, invalidUrlMsg args.url, rfl⟩
  · rw [if_pos ⟨hinfo, hex⟩]
    exact ⟨rfl, fileExistsMsg (filenameOf args w.nowStamp), rfl⟩

/-- A scan invocation whose target file already exists. -/
def c9World : World :=
  { c4World with fileExists := fun _ => true }

/-- C9 witness: the theorem at a concrete run. -/
theorem c9_existing_file_fatal_witness :
    (run c4Args c9World).1 = [] ∧
    ∃ msg, (run c4Args c9World).2 = Outcome.failed msg :=
  c9_existing_file_fatal c4Args c9World rfl rfl

/-- C10: with a well-formed URL and successful capability/status GETs,
an `--info` run performs exactly those two network calls, prints the
capability and status summary, and exits with code 0 — for every
combination of the remaining arguments and capability values, so no
scan parameter is validated, the output path is never checked or
written, and no job is submitted or polled. -/
theorem c10_info_only_queries (args : Args) (w : World)
    (hinfo : args.info = true)
    (hurl : ¬(strStartsWith args.url "http://" = false ∧
              strStartsWith args.url "https://" = false))
    (hcap : httpError w.capStatus = false)
    (hst : httpError w.statusStatus = false) :
    run args w =
      ([Event.getCapabilities (urljoinModel args.url "eSCL/ScannerCapabilities"),
        Event.getStatus (urljoinModel args.url "eSCL/ScannerStatus")]
        ++ (infoLines args w).map Event.printLine,
       Outcome.infoShown) := by
  unfold run runQueries
  rw [if_neg hurl,
    if_neg (fun hand => by rw [hinfo] at hand; cases hand.1),
    if_neg (fun h => by rw [hcap] at h; cases h),
    if_neg (fun h => by rw [hst] at h; cases h),
    if_pos hinfo]

/-- An `--info` invocation (other parameters deliberately nonsensical). -/
def c10Args : Args :=
  { info := true, out := "", type := "pdf", resolution := "9999",
    colorMode := "g8", size := "a5", url := "http://scanner.local" }

/-- C10 witness: the theorem at a concrete run. -/
theorem c10_info_only_queries_witness :
    run c10Args c2World =
      ([Event.getCapabilities (urljoinModel c10Args.url "eSCL/ScannerCapabilities"),
        Event.getStatus (urljoinModel c10Args.url "eSCL/ScannerStatus")]
        ++ (infoLines c10Args c2World).map Event.printLine,
       Outcome.infoShown) :=
  c10_info_only_queries c10Args c2World rfl
    (fun hand => by
      rw [show strStartsWith c10Args.url "http://" = true from rfl] at hand
      cases hand.1)
    rfl rfl

/-- C6: in a run that reaches negotiation (good URL, fresh output path,
successful GETs, no `--info`) and whose requested MIME format is not in
the device's supported-format list, the run fails with the
capability-mismatch diagnostic — which names the offending MIME value
and the supported set — and the trace holds only the two capability and
status GETs, so no scan job is ever submitted. -/
theorem c6_unsupported_format (args : Args) (w : World) (m : String)
    (hinfo : args.info = false)
    (hurl : ¬(strStartsWith args.url "http://" = false ∧
              strStartsWith args.url "https://" = false))
    (hfile : w.fileExists (filenameOf args w.nowStamp) = false)
    (hcap : httpError w.capStatus = false)
    (hst : httpError w.statusStatus = false)
    (hmime : mimeOf args.type = some m)
    (hmem : m ∉ w.caps.formats) :
    run args w =
      ([Event.getCapabilities (urljoinModel args.url "eSCL/ScannerCapabilities"),
        Event.getStatus (urljoinModel args.url "eSCL/ScannerStatus")],
       Outcome.failed (unsupportedFormatMsg m w.caps.formats)) ∧
    NamesStr (unsupportedFormatMsg m w.caps.formats) m ∧
    NamesStr (unsupportedFormatMsg m w.caps.formats) (pyStrList w.caps.formats) := by
  refine ⟨?_, ?_, ?_⟩
  · unfold run runQueries runScan
    rw [if_neg hurl,
      if_neg (fun hand => by rw [hfile] at hand; cases hand.2),
      if_neg (fun h => by rw [hcap] at h; cases h),
      if_neg (fun h => by rw [hst] at h; cases h),
      if_neg (fun h => by rw [hinfo] at h; cases h),
      hmime]
    exact if_pos hmem
  · exact ⟨"Unsupported format: '", "', supported: " ++ pyStrList w.caps.formats, by
      simp [unsupportedFormatMsg, String.append_assoc]⟩
  · exact ⟨"Unsupported format: '" ++ m ++ "', supported: ", "", by
      simp [unsupportedFormatMsg, String.append_assoc]⟩

/-- A request for PDF output against a JPEG-only scanner. -/
def c6Caps : CapsDoc :=
  { c4Caps with formats := ["image/jpeg"] }

/-- Environment for the PDF-against-JPEG-only scenario. -/
def c6World : World :=
  { c4World with caps := c6Caps }

/-- A PDF scan invocation. -/
def c6Args : Args :=
  { c4Args with type := "pdf", out := "out-c6.pdf" }

/-- C6 witness: the theorem at the spec's own example (request PDF,
supported set `image/jpeg` only). -/
theorem c6_unsupported_format_witness :
    run c6Args c6World =
      ([Event.getCapabilities (urljoinModel c6Args.url "eSCL/ScannerCapabilities"),
        Event.getStatus (urljoinModel c6Args.url "eSCL/ScannerStatus")],
       Outcome.failed (unsupportedFormatMsg "application/pdf" c6World.caps.formats)) :=
  (c6_unsupported_format c6Args c6World "application/pdf" rfl
    (fun hand => by
      rw [show strStartsWith c6Args.url "http://" = true from rfl] at hand
      cases hand.1)
    rfl rfl rfl rfl
    (by
      intro hmem
      rw [show c6World.caps.formats = ["image/jpeg"] from rfl] at hmem
      simp at hmem)).1

/-! ## C3: the poll loop -/

/-- Capabilities document for the poll-loop scenario. -/
def c3Caps : CapsDoc :=
  { versionText := ["2.63"], makeAndModelText := ["TestScanner 100"],
    serialNumberText := ["SN1"], adminUriText := ["http://scanner.local/admin"],
    formats := ["image/jpeg", "application/pdf"],
    colorModes := ["RGB24", "Grayscale8"],
    xResolutions := ["300"], yResolutions := ["300"],
    maxWidthText := ["2500"], maxHeightText := ["3500"] }

/-- A plain scan invocation (auto resolution, device-max size). -/
def c3Args : Args :=
  { info := false, out := "out-c3.jpg", type := "jpg", resolution := "",
    colorMode := "r24", size := "max", url := "http://scanner.local" }

/-- A healthy environment around `c3Caps` parameterised by the scripted
poll responses. -/
def c3World (ps : List (Nat × String)) : World :=
  { nowStamp := "20260101-120000", fileExists := fun _ => false,
    capStatus := 200, caps := c3Caps, statusStatus := 200,
    stateText := ["Idle"], submitStatus := 201,
    submitLocation := some "http://scanner.local/eSCL/ScanJobs/1",
    pollResponses := ps }

/-- The poll URL this scenario computes from the `Location` header. -/
def c3Url : String := "http://scanner.local/eSCL/ScanJobs/1/NextDocument"

/-- The trace prefix of the scenario, up to and including the submit. -/
def c3Pre : List Event :=
  [Event.getCapabilities "http://scanner.local/eSCL/ScannerCapabilities",
   Event.getStatus "http://scanner.local/eSCL/ScannerStatus",
   Event.submitJob "http://scanner.local/eSCL/ScanJobs"
     (startReq "2.63" "image/jpeg" "RGB24" "300" 2500 3500)]

/-- The scenario's run reduces to the poll loop over the scripted
responses. -/
theorem run_c3_eq (ps : List (Nat × String)) :
    run c3Args (c3World ps) =
      (match (pollLoop c3Url ps 1).2 with
       | PollResult.received content =>
         (c3Pre ++ (pollLoop c3Url ps 1).1 ++ [Event.writeFile "out-c3.jpg" content],
          Outcome.finished "out-c3.jpg")
       | PollResult.gaveUp =>
         (c3Pre ++ (pollLoop c3Url ps 1).1,
          Outcome.failed (giveUpMsg c3Url "out-c3.jpg"))
       | PollResult.outOfResponses =>
         (c3Pre ++ (pollLoop c3Url ps 1).1, Outcome.starved)) := rfl

/-- A response script of non-200 answers followed by a 200 ends in
`received` as long as the attempt budget is not exhausted before the
200 arrives. -/
theorem pollLoop_success (url b : String) :
    ∀ (rs : List (Nat × String)) (c : Nat), (∀ p ∈ rs, p.1 ≠ 200) →
      c + rs.length ≤ MAX_POLL →
      (pollLoop url (rs ++ [(200, b)]) c).2 = PollResult.received b := by
  intro rs
  induction rs with
  | nil => intro c _ _; rfl
  | cons hd tl ih =>
    intro c hne hlen
    obtain ⟨code, body⟩ := hd
    have hcode : code ≠ 200 := hne (code, body) (List.mem_cons_self _ _)
    have hc : ¬ (MAX_POLL < c + 1) := by
      simp only [List.length_cons] at hlen
      omega
    simp only [List.cons_append, pollLoop]
    rw [if_neg hcode, if_neg hc]
    exact ih (c + 1) (fun p hp => hne p (List.mem_cons_of_mem _ hp)) (by
      simp only [List.length_cons] at hlen
      omega)

/-- A response script of nothing but non-200 answers, long enough to
exhaust the attempt budget, ends in `gaveUp`. -/
theorem pollLoop_giveup (url : String) :
    ∀ (rs : List (Nat × String)) (c : Nat), (∀ p ∈ rs, p.1 ≠ 200) →
      c ≤ MAX_POLL → c + rs.length = MAX_POLL + 1 →
      (pollLoop url rs c).2 = PollResult.gaveUp := by
  intro rs
  induction rs with
  | nil =>
    intro c _ hc hlen
    exfalso
    simp only [List.length_nil] at hlen
    omega
  | cons hd tl ih =>
    intro c hne hc hlen
    obtain ⟨code, body⟩ := hd
    have hcode : code ≠ 200 := hne (code, body) (List.mem_cons_self _ _)
    simp only [pollLoop]
    rw [if_neg hcode]
    by_cases hgt : MAX_POLL < c + 1
    · rw [if_pos hgt]
    · rw [if_neg hgt]
      exact ih (c + 1) (fun p hp => hne p (List.mem_cons_of_mem _ hp))
        (by omega) (by
          simp only [List.length_cons] at hlen
          omega)

/-- C3: with the attempt cap N = `MAX_POLL`, a response script of N-1
non-200 answers followed by a 200 with body `b` makes the run finish
and write exactly `b`; a script of N consecutive non-200 answers makes
the run fail with the give-up diagnostic, which contains the computed
poll URL. -/
theorem c3_poll_retry_policy :
    (∀ (rs : List (Nat × String)) (b : String),
      rs.length = MAX_POLL - 1 → (∀ p ∈ rs, p.1 ≠ 200) →
      (run c3Args (c3World (rs ++ [(200, b)]))).2 = Outcome.finished "out-c3.jpg" ∧
      Event.writeFile "out-c3.jpg" b ∈ (run c3Args (c3World (rs ++ [(200, b)]))).1)
    ∧ (∀ rs : List (Nat × String),
      rs.length = MAX_POLL → (∀ p ∈ rs, p.1 ≠ 200) →
      (run c3Args (c3World rs)).2 = Outcome.failed (giveUpMsg c3Url "out-c3.jpg") ∧
      NamesStr (giveUpMsg c3Url "out-c3.jpg") c3Url) := by
  constructor
  · intro rs b hlen hne
    have hsnd : (pollLoop c3Url (rs ++ [(200, b)]) 1).2 = PollResult.received b :=
      pollLoop_success c3Url b rs 1 hne (by rw [hlen]; decide)
    rw [run_c3_eq, hsnd]
    refine ⟨rfl, ?_⟩
    show Event.writeFile "out-c3.jpg" b ∈
      c3Pre ++ (pollLoop c3Url (rs ++ [(200, b)]) 1).1 ++
        [Event.writeFile "out-c3.jpg" b]
    simp
  · intro rs hlen hne
    have hsnd : (pollLoop c3Url rs 1).2 = PollResult.gaveUp :=
      pollLoop_giveup c3Url rs 1 hne (by decide) (by rw [hlen]; omega)
    rw [run_c3_eq, hsnd]
    refine ⟨rfl, ?_⟩
    exact ⟨"Giving up after " ++ toString MAX_POLL ++
        " attempts to load result, try it manually later: curl -s ",
      " > " ++ "out-c3.jpg", by simp [giveUpMsg, String.append_assoc]⟩

/-- C3 witness: the theorem at concrete response scripts (49 failures
then success; 50 failures). -/
theorem c3_poll_retry_policy_witness :
    (run c3Args (c3World (List.replicate 49 (503, "") ++ [(200, "JPEGDATA")]))).2 =
      Outcome.finished "out-c3.jpg" ∧
    (run c3Args (c3World (List.replicate 50 (503, "")))).2 =
      Outcome.failed (giveUpMsg c3Url "out-c3.jpg") :=
  ⟨(c3_poll_retry_policy.1 (List.replicate 49 (503, "")) "JPEGDATA" (by decide)
      (fun p hp => by rw [List.eq_of_mem_replicate hp]; decide)).1,
   (c3_poll_retry_policy.2 (List.replicate 50 (503, "")) (by decide)
      (fun p hp => by rw [List.eq_of_mem_replicate hp]; decide)).1⟩

end EsclScan
